import Mathlib

/-!
Shallow embedding of the physics core of the `webrtc-slimeball` repository
(`src/script.js`, with the earlier variant in `src/unnamed/part_000`).

Modelling conventions:
* JavaScript numbers are modelled as rationals (`ℚ`); all game arithmetic in
  the source is field arithmetic, decimal literals are written as exact
  fractions (for example `0.73` becomes `73/100`).
* `Math.sqrt` does not stay inside `ℚ`, so functions that consume the output
  of `Wall.checkCollision` take the collision record `{dist, dx, dy}` as an
  argument (exactly as `Wall.resolve` does in the source); theorems that need
  the square-root semantics assume `dist ^ 2 = dx ^ 2 + dy ^ 2` and
  `0 ≤ dist`, the defining properties of `Math.sqrt (dx*dx + dy*dy)`.
  Inside the frame loop, `Math.sqrt` is abstracted as an oracle parameter
  `sqrtQ : ℚ → ℚ`.
* `Math.pow (b, dt)` with a fractional exponent is abstracted as an oracle
  parameter `powDt : ℚ → ℚ` standing for `fun b => b ^ dt`; `Math.cos` /
  `Math.sin` of the jump direction are passed as rational parameters; and
  each potential `Math.random()` draw is an explicit parameter in `[0, 1)`.
* Rendering, DOM, and networking are outside the model; the `Game` record
  keeps exactly the simulation state the spec talks about.
-/

namespace SlimeGame

/-- Player state machine: `'stuck' | 'air' | 'sticky'` (src/script.js line 283). -/
inductive PState where
  | stuck
  | air
  | sticky
deriving DecidableEq, Repr

/-- Wall/obstacle types. `script.js` creates `normal`, `bouncy`, `vertical`;
the earlier variant (`src/unnamed/part_000`) additionally creates `floor`,
and the spec's data model lists all four. -/
inductive WType where
  | floor
  | normal
  | bouncy
  | vertical
deriving DecidableEq, Repr

/-- The slime player (src/script.js `class Player`). `stickX`/`stickY` model
`stickPoint.x`/`stickPoint.y`. -/
structure Player where
  x : ℚ
  y : ℚ
  vx : ℚ
  vy : ℚ
  radius : ℚ
  state : PState
  stickX : ℚ
  stickY : ℚ
  impactSpeed : ℚ
deriving DecidableEq, Repr

/-- An axis-aligned wall rectangle (src/script.js `class Wall`). -/
structure Wall where
  x : ℚ
  y : ℚ
  w : ℚ
  h : ℚ
  type : WType
deriving DecidableEq, Repr

/-- The collision record `{dist, dx, dy}` produced by `Wall.checkCollision`
and consumed by `Wall.resolve` (src/script.js lines 380-392). -/
structure ColData where
  dist : ℚ
  dx : ℚ
  dy : ℚ
deriving DecidableEq, Repr

/-- `Math.max(a, Math.min(p, b))`: the clamped projection used for the
nearest point of a rectangle (src/script.js lines 381-382). -/
def clampQ (p a b : ℚ) : ℚ := max a (min p b)

/-- Squared distance from a point to the nearest point of a wall's rectangle,
via the clamped projection of src/script.js `Wall.checkCollision`.  The
source compares `Math.sqrt` of this value against the radius; both sides
being nonnegative, `dist < r` is the same test as `sqDist < r ^ 2`. -/
def sqDistToWall (w : Wall) (px py : ℚ) : ℚ :=
  (px - clampQ px w.x (w.x + w.w)) ^ 2 + (py - clampQ py w.y (w.y + w.h)) ^ 2

/-- The collision test of `Wall.checkCollision` (`dist < p.radius`), phrased
on squared distances to stay inside `ℚ`. -/
def collides (w : Wall) (p : Player) : Prop :=
  sqDistToWall w p.x p.y < p.radius ^ 2

instance (w : Wall) (p : Player) : Decidable (collides w p) := by
  unfold collides; infer_instance

/-- `Wall.checkCollision` as run inside the frame loop, with `Math.sqrt`
supplied as the oracle `sqrtQ` (src/script.js lines 380-392). -/
def Wall.checkCollision (sqrtQ : ℚ → ℚ) (w : Wall) (p : Player) : Option ColData :=
  let closestX := clampQ p.x w.x (w.x + w.w)
  let closestY := clampQ p.y w.y (w.y + w.h)
  let dx := p.x - closestX
  let dy := p.y - closestY
  let dist := sqrtQ (dx * dx + dy * dy)
  if dist < p.radius then some ⟨dist, dx, dy⟩ else none

/-- The contact normal of src/script.js lines 397-403: `(dx/dist, dy/dist)`,
defaulting to straight up `(0, -1)` when `dist` is exactly `0`. -/
def normalOf (c : ColData) : ℚ × ℚ :=
  if c.dist = 0 then (0, -1) else (c.dx / c.dist, c.dy / c.dist)

/-- `Wall.resolve` (src/script.js lines 394-443): depenetrate along the
contact normal by the overlap `radius - dist`, then react by wall type.
`bouncy` reflects the velocity about the normal, multiplies both components
by 1.1 and returns `false`; otherwise the velocity is zeroed and `true` is
returned, entering `sticky` (with `stickPoint = (p.x, w.y + w.h)` and
`impactSpeed = |vy|`) when the normal's y-component exceeds 0.5 and the type
is `normal`, else entering `stuck`. -/
def Wall.resolve (w : Wall) (p : Player) (c : ColData) : Player × Bool :=
  let overlap := p.radius - c.dist
  let nx := (normalOf c).1
  let ny := (normalOf c).2
  let p1 : Player := { p with x := p.x + nx * overlap, y := p.y + ny * overlap }
  if w.type = WType.bouncy then
    let dot := p1.vx * nx + p1.vy * ny
    (({ p1 with
        vx := (p1.vx - 2 * dot * nx) * (11/10),
        vy := (p1.vy - 2 * dot * ny) * (11/10) } : Player), false)
  else
    if 1/2 < ny ∧ w.type = WType.normal then
      (({ p1 with
          state := PState.sticky,
          stickX := p1.x,
          stickY := w.y + w.h,
          impactSpeed := |p1.vy|,
          vx := 0,
          vy := 0 } : Player), true)
    else
      (({ p1 with state := PState.stuck, vx := 0, vy := 0 } : Player), true)

/-- `Player.jump` (src/script.js lines 336-346).  `ca` and `sa` stand for
`Math.cos(angle + Math.PI)` and `Math.sin(angle + Math.PI)` — the
trigonometric evaluation of the jump direction (opposite the tilt angle) is
kept as rational parameters so the model stays executable. -/
def Player.jump (p : Player) (ca sa forceMagnitude maxForce forceMult : ℚ) :
    Player × Bool :=
  if p.state ≠ PState.stuck ∧ p.state ≠ PState.sticky then (p, false)
  else
    let force := min (forceMagnitude * forceMult) maxForce
    (({ p with vx := ca * force, vy := sa * force, state := PState.air } : Player),
      true)

/-- `Player.checkBounds` (src/script.js lines 352-360): horizontal clamp to
`[radius, width - radius]` with the velocity inverted and damped to 70%. -/
def Player.checkBounds (p : Player) (width : ℚ) : Player :=
  if p.x - p.radius < 0 then
    { p with x := p.radius, vx := p.vx * (-7/10) }
  else if p.x + p.radius > width then
    { p with x := width - p.radius, vx := p.vx * (-7/10) }
  else p

/-- `Player.updatePhysics` (src/script.js lines 301-334).  `powDt b` stands
for `Math.pow(b, dt)`.  In `air`: gravity and frame-rate-independent
friction decay.  In `sticky`: viscous drag built from `STICKY_DRAG = 1.5`
plus an impact-speed term, clamped to `[0.85, 0.98]`, reduced by the stretch
tension, gravity at 10% strength, and a 0.8 horizontal decay. -/
def Player.updatePhysics (p : Player) (powDt : ℚ → ℚ) (dt gravity friction : ℚ) :
    Player :=
  match p.state with
  | PState.air =>
      { p with vy := p.vy + gravity * dt, vx := p.vx * powDt friction }
  | PState.sticky =>
      let drag0 := 3/2 + p.impactSpeed * (5/1000)
      let drag1 := min (98/100) (max (85/100) drag0)
      let dist := |p.y - p.stickY|
      let tension := dist * (2/1000)
      let drag2 := drag1 - tension
      { p with
        vy := (p.vy + gravity * (1/10) * dt) * powDt (max (1/2) drag2),
        vx := p.vx * (8/10) }
  | PState.stuck => p

/-- The rising tide hazard (src/script.js `class Tide`); `speed` is set by
`Game.resize` to `worldWidth * 0.001`. -/
structure Tide where
  y : ℚ
  speed : ℚ
deriving DecidableEq, Repr

/-- `Tide.update` (src/script.js lines 457-470): if the vertical distance to
the player exceeds half a world height, add a catch-up term
`(dist - threshold) * TIDE_CATCHUP` (`TIDE_CATCHUP = 0.005`), then move up by
`currentSpeed * dt`.  The source's unused `worldWidth` argument is omitted;
the visual `waveOffset` is not part of the model. -/
def Tide.update (t : Tide) (dt playerY worldHeight : ℚ) : Tide :=
  let distToTide := t.y - playerY
  let catchUpThreshold := worldHeight * (1/2)
  let currentSpeed :=
    if distToTide > catchUpThreshold then
      t.speed + (distToTide - catchUpThreshold) * (5/1000)
    else t.speed
  { t with y := t.y - currentSpeed * dt }

/-- The scrolling camera (src/script.js `class Camera`); its smoothness
constant is 0.1. -/
structure Camera where
  y : ℚ
deriving DecidableEq, Repr

/-- `Camera.update` (src/script.js lines 482-488).  `lerpFactor` stands for
`1 - Math.pow(1 - smoothness, dt)`; the camera moves toward the target by
that fraction and is then clamped to `limitY`. -/
def Camera.update (cam : Camera) (lerpFactor targetY limitY : ℚ) : Camera :=
  let y1 := cam.y + (targetY - cam.y) * lerpFactor
  if y1 > limitY then { y := limitY } else { y := y1 }

/-- The clamp limit passed to `Camera.update` by the game loop
(src/script.js line 1036): `tide.y - worldHeight + worldHeight * 0.1`. -/
def cameraLimit (tideY worldHeight : ℚ) : ℚ :=
  tideY - worldHeight + worldHeight * (1/10)

/-- The procedural level generator (src/script.js `class LevelGenerator`):
`highestY` is the generation cursor. -/
structure LevelGenerator where
  highestY : ℚ
deriving DecidableEq, Repr

/-- `LevelGenerator.generateNext` (src/script.js lines 503-527) with the four
`Math.random()` draws passed as `r1` (gap), `r2` (type roll), `r3` (size),
`r4` (horizontal position); each draw lies in `[0, 1)`.  The gap is
`W*0.2 + r1*W*0.4`; the roll gives `bouncy` above 0.73 and `vertical` above
0.78 (the second test overrides the first), otherwise `normal`. -/
def LevelGenerator.generateNext (g : LevelGenerator) (worldWidth r1 r2 r3 r4 : ℚ) :
    Wall × LevelGenerator :=
  let gap := worldWidth * (2/10) + r1 * (worldWidth * (4/10))
  let y := g.highestY - gap
  let type :=
    if r2 > 78/100 then WType.vertical
    else if r2 > 73/100 then WType.bouncy
    else WType.normal
  if type = WType.vertical then
    let w := worldWidth * (5/100)
    let h := worldWidth * (10/100) + r3 * (worldWidth * (5/10))
    let x := r4 * (worldWidth - w)
    (⟨x, y, w, h, type⟩, ⟨y⟩)
  else
    let w := worldWidth * (10/100) + r3 * (worldWidth * (5/10))
    let h := worldWidth * (5/100)
    let x := r4 * (worldWidth - w)
    (⟨x, y, w, h, type⟩, ⟨y⟩)

/-- The per-frame score rule of `Game.update` (src/script.js lines
1039-1044): `h = Math.floor(-player.y / scoreDivisor)`, kept only when it
beats the current score. -/
def scoreStep (divisor : ℚ) (score : ℤ) (y : ℚ) : ℤ :=
  let h := ⌊-y / divisor⌋
  if score < h then h else score

/-- The score fold over the per-frame `player.y` values observed at the
score step of consecutive playing frames. -/
def runScore (divisor : ℚ) (s : ℤ) (ys : List ℚ) : ℤ :=
  ys.foldl (scoreStep divisor) s

/-- Game phase: `'start' | 'playing' | 'gameover'` (src/script.js line 823). -/
inductive GState where
  | start
  | playing
  | gameover
deriving DecidableEq, Repr

/-- The simulation state owned by `class Game` (src/script.js): everything
the per-frame `Game.update` reads or writes, excluding DOM/network
side effects and the visual-only fields. -/
structure Game where
  state : GState
  score : ℤ
  player : Player
  tide : Tide
  camera : Camera
  walls : List Wall
  levelGen : LevelGenerator
  worldWidth : ℚ
  worldHeight : ℚ
  gravity : ℚ
  scoreDivisor : ℚ
deriving DecidableEq, Repr

/-- One pass of the wall-collision scan inside a physics sub-step
(src/script.js lines 1068-1077): walls are visited in list order; the first
colliding wall is resolved; a `true` resolve (stick) stops the scan, a
`false` resolve (bouncy) continues it with the updated player. -/
def resolveWalls (sqrtQ : ℚ → ℚ) (walls : List Wall) (p : Player) : Player × Bool :=
  match walls with
  | [] => (p, false)
  | w :: rest =>
      match w.checkCollision sqrtQ p with
      | none => resolveWalls sqrtQ rest p
      | some c =>
          let r := w.resolve p c
          if r.2 then (r.1, true) else resolveWalls sqrtQ rest r.1

/-- The sub-step loop of `Game.updatePhysics` (src/script.js lines
1063-1081): move by `velocity * subDt`, resolve collisions, and either stop
(the player stuck this sub-step, skipping the bounds check as the source
`break` does) or clamp to the world bounds and continue. -/
def runSubsteps (sqrtQ : ℚ → ℚ) (walls : List Wall) (width subDt : ℚ) :
    ℕ → Player → Player
  | 0, p => p
  | n + 1, p =>
      let p1 : Player := { p with x := p.x + p.vx * subDt, y := p.y + p.vy * subDt }
      let r := resolveWalls sqrtQ walls p1
      if r.2 then r.1
      else runSubsteps sqrtQ walls width subDt n (r.1.checkBounds width)

/-- `Game.updatePhysics` (src/script.js lines 1054-1083): guarded on the
player being in `air` or `sticky`; applies the per-frame forces once, then
runs `SUBSTEPS = 8` sub-steps with `subDt = dt / 8` and `FRICTION = 0.998`. -/
def Game.updatePhysicsStep (sqrtQ powDt : ℚ → ℚ) (dt : ℚ) (g : Game) : Game :=
  if g.player.state ≠ PState.air ∧ g.player.state ≠ PState.sticky then g
  else
    let subDt := (1/8) * dt
    let p0 := g.player.updatePhysics powDt dt g.gravity (998/1000)
    { g with player := runSubsteps sqrtQ g.walls g.worldWidth subDt 8 p0 }

/-- `Game.update` (src/script.js lines 1020-1052), the per-frame step.  When
the phase is not `playing` it returns immediately; otherwise, in source
order: tide update, tide-contact game over (`TIDE_COLLISION_THRESHOLD =
0.03`; the source keeps executing the rest of the frame after `gameOver()`),
physics sub-steps, camera smoothing with the hazard clamp, score step, at
most one look-ahead wall generation (`GEN_TRIGGER_DIST = 1.2`, with the four
random draws `r1..r4`), and cleanup of walls scrolled `CLEANUP_DIST = 1.0`
world heights below the view. -/
def Game.update (sqrtQ powDt : ℚ → ℚ) (dt r1 r2 r3 r4 : ℚ) (g : Game) : Game :=
  if g.state ≠ GState.playing then g
  else
    let g1 : Game := { g with tide := g.tide.update dt g.player.y g.worldHeight }
    let g2 : Game :=
      if g1.player.y + g1.player.radius > g1.tide.y + g1.worldWidth * (3/100) then
        { g1 with state := GState.gameover }
      else g1
    let g3 := Game.updatePhysicsStep sqrtQ powDt dt g2
    let targetCamY := g3.player.y - g3.worldHeight * (6/10)
    let lerpFactor := 1 - powDt (9/10)
    let g4 : Game :=
      { g3 with
        camera := g3.camera.update lerpFactor targetCamY
          (cameraLimit g3.tide.y g3.worldHeight) }
    let g5 : Game :=
      { g4 with score := scoreStep g4.scoreDivisor g4.score g4.player.y }
    let g6 : Game :=
      if g5.camera.y < g5.levelGen.highestY + g5.worldHeight * (12/10) then
        let gen := g5.levelGen.generateNext g5.worldWidth r1 r2 r3 r4
        { g5 with walls := g5.walls ++ [gen.1], levelGen := gen.2 }
      else g5
    { g6 with
      walls := g6.walls.filter
        (fun w => w.y < g6.camera.y + g6.worldHeight + g6.worldHeight) }

/-! ## Theorems -/

/-- C5: a `jump(angle, magnitude, maxForce, forceMultiplier)` call is
accepted exactly when the player's state is `stuck` or `sticky` and returns
that acceptance; when accepted the applied force is
`min (magnitude * forceMultiplier) maxForce`, the velocity becomes the jump
direction (`cos (angle + π)`, `sin (angle + π)`, passed as `ca`, `sa`)
scaled by that force, and the state becomes `air`; otherwise the player is
returned unchanged with `false`. -/
theorem jump_characterization (p : Player) (ca sa mag maxF mult : ℚ) :
    ((p.jump ca sa mag maxF mult).2 = true ↔
      (p.state = PState.stuck ∨ p.state = PState.sticky)) ∧
    p.jump ca sa mag maxF mult =
      (if p.state = PState.stuck ∨ p.state = PState.sticky then
        (({ p with
            vx := ca * min (mag * mult) maxF,
            vy := sa * min (mag * mult) maxF,
            state := PState.air } : Player), true)
      else (p, false)) := by
  rcases p with ⟨x, y, vx, vy, r, st, sx, sy, im⟩
  cases st <;> simp [Player.jump]

/-- C10: a `jump` call from any state other than `stuck` or `sticky` is
rejected atomically: it returns `false` and the player record — state,
position, velocity, stickPoint and impactSpeed — is unchanged. -/
theorem jump_rejected_unchanged (p : Player) (ca sa mag maxF mult : ℚ)
    (h1 : p.state ≠ PState.stuck) (h2 : p.state ≠ PState.sticky) :
    p.jump ca sa mag maxF mult = (p, false) := by
  simp [Player.jump, h1, h2]

/-- Witness for C10 at a concrete airborne player. -/
theorem jump_rejected_unchanged_witness :
    (Player.mk 1 2 3 4 5 PState.air 6 7 8).state ≠ PState.stuck ∧
    (Player.mk 1 2 3 4 5 PState.air 6 7 8).state ≠ PState.sticky ∧
    (Player.mk 1 2 3 4 5 PState.air 6 7 8).jump 1 0 50 10 2 =
      (Player.mk 1 2 3 4 5 PState.air 6 7 8, false) :=
  ⟨by decide, by decide,
    jump_rejected_unchanged (Player.mk 1 2 3 4 5 PState.air 6 7 8) 1 0 50 10 2
      (by decide) (by decide)⟩

/-- C9: when the game phase is not `playing` (`start` or the frozen
`gameover`), the per-frame `Game.update` leaves the entire simulation state
— player, tide, camera, walls, generator cursor and score — unchanged. -/
theorem update_frozen_outside_playing (sqrtQ powDt : ℚ → ℚ)
    (dt r1 r2 r3 r4 : ℚ) (g : Game) (h : g.state ≠ GState.playing) :
    Game.update sqrtQ powDt dt r1 r2 r3 r4 g = g := by
  simp [Game.update, h]

/-- Witness for C9 at a concrete game state in the `start` phase. -/
theorem update_frozen_outside_playing_witness :
    (Game.mk GState.start 0 (Player.mk 0 0 0 0 1 PState.stuck 0 0 0)
        (Tide.mk 5 1) (Camera.mk 0) [] (LevelGenerator.mk 0) 10 16 1 10).state ≠
      GState.playing ∧
    Game.update (fun q => q) (fun q => q) 1 0 0 0 0
        (Game.mk GState.start 0 (Player.mk 0 0 0 0 1 PState.stuck 0 0 0)
          (Tide.mk 5 1) (Camera.mk 0) [] (LevelGenerator.mk 0) 10 16 1 10) =
      Game.mk GState.start 0 (Player.mk 0 0 0 0 1 PState.stuck 0 0 0)
        (Tide.mk 5 1) (Camera.mk 0) [] (LevelGenerator.mk 0) 10 16 1 10 :=
  ⟨by decide,
    update_frozen_outside_playing (fun q => q) (fun q => q) 1 0 0 0 0
      (Game.mk GState.start 0 (Player.mk 0 0 0 0 1 PState.stuck 0 0 0)
        (Tide.mk 5 1) (Camera.mk 0) [] (LevelGenerator.mk 0) 10 16 1 10)
      (by decide)⟩

/-- C8: each camera update moves `camera.y` toward the target by the
exponential-smoothing fraction `lerpFactor = 1 - (1 - smoothness)^dt` and
then clamps, so the result is `min limitY (y + (target - y) * lerpFactor)`;
with the game loop's limit `hazard.y - worldHeight + padding` the updated
camera never exceeds that limit. -/
theorem camera_update_clamped (cam : Camera) (lerpFactor targetY tideY worldHeight : ℚ) :
    (cam.update lerpFactor targetY (cameraLimit tideY worldHeight)).y ≤
      tideY - worldHeight + worldHeight * (1/10) ∧
    ∀ limitY : ℚ, (cam.update lerpFactor targetY limitY).y =
      min limitY (cam.y + (targetY - cam.y) * lerpFactor) := by
  have hmin : ∀ limitY : ℚ, (cam.update lerpFactor targetY limitY).y =
      min limitY (cam.y + (targetY - cam.y) * lerpFactor) := by
    intro L
    simp only [Camera.update]
    split_ifs with h
    · exact (min_eq_left h.le).symm
    · exact (min_eq_right (not_lt.mp h)).symm
  refine ⟨?_, hmin⟩
  rw [hmin (cameraLimit tideY worldHeight)]
  exact le_trans (min_le_left _ _) (le_of_eq rfl)

/-- C7: for every hazard update with non-negative frame delta (and the
non-negative base speed that `Game.resize` installs, `worldWidth * 0.001`),
the tide's `y` never increases; and when the vertical distance to the player
exceeds half a world height, the decrease equals
`(speed + (dist - threshold) * 0.005) * dt`, i.e. it additionally includes a
catch-up term proportional to the excess distance. -/
theorem tide_update_monotone (t : Tide) (dt playerY worldHeight : ℚ)
    (hdt : 0 ≤ dt) (hsp : 0 ≤ t.speed) :
    (t.update dt playerY worldHeight).y ≤ t.y ∧
    (t.y - playerY > worldHeight * (1/2) →
      t.y - (t.update dt playerY worldHeight).y =
        (t.speed + (t.y - playerY - worldHeight * (1/2)) * (5/1000)) * dt) := by
  simp only [Tide.update]
  split_ifs with h
  · constructor
    · have hc : 0 ≤ (t.speed + (t.y - playerY - worldHeight * (1/2)) * (5/1000)) * dt := by
        nlinarith
      linarith
    · intro _
      ring
  · constructor
    · nlinarith
    · intro hcon
      exact absurd hcon h

/-- Witness for C7: tide at y = 10 with base speed 2, player at y = 0, world
height 4, frame delta 3 (the catch-up branch is active). -/
theorem tide_update_monotone_witness :
    (0:ℚ) ≤ 3 ∧ (0:ℚ) ≤ (Tide.mk 10 2).speed ∧
    (((Tide.mk 10 2).update 3 0 4).y ≤ (Tide.mk 10 2).y ∧
      ((Tide.mk 10 2).y - 0 > 4 * (1/2) →
        (Tide.mk 10 2).y - ((Tide.mk 10 2).update 3 0 4).y =
          ((Tide.mk 10 2).speed + ((Tide.mk 10 2).y - 0 - 4 * (1/2)) * (5/1000)) * 3)) :=
  ⟨by decide, by decide, tide_update_monotone (Tide.mk 10 2) 3 0 4 (by decide) (by decide)⟩

/-- C6: with world width `W > 0` and the gap draw `r1 ∈ [0, 1)`,
`generateNext` returns an obstacle whose `y` is the cursor minus a gap lying
in `[0.2·W, 0.6·W]`, hence strictly below the cursor's value before the
call, and the cursor is updated to that new `y`. -/
theorem generateNext_gap_bounds (g : LevelGenerator) (W r1 r2 r3 r4 : ℚ)
    (hW : 0 < W) (hr0 : 0 ≤ r1) (hr1 : r1 < 1) :
    (g.generateNext W r1 r2 r3 r4).1.y =
      g.highestY - (W * (2/10) + r1 * (W * (4/10))) ∧
    W * (2/10) ≤ g.highestY - (g.generateNext W r1 r2 r3 r4).1.y ∧
    g.highestY - (g.generateNext W r1 r2 r3 r4).1.y ≤ W * (6/10) ∧
    (g.generateNext W r1 r2 r3 r4).1.y < g.highestY ∧
    (g.generateNext W r1 r2 r3 r4).2.highestY = (g.generateNext W r1 r2 r3 r4).1.y := by
  simp only [LevelGenerator.generateNext]
  split_ifs <;>
    refine ⟨rfl, by nlinarith, by nlinarith, by nlinarith, rfl⟩

/-- Witness for C6 at cursor 100, world width 10, gap draw 1/2. -/
theorem generateNext_gap_bounds_witness :
    (0:ℚ) < 10 ∧ (0:ℚ) ≤ 1/2 ∧ (1/2 : ℚ) < 1 ∧
    (((LevelGenerator.mk 100).generateNext 10 (1/2) 0 0 0).1.y =
        (LevelGenerator.mk 100).highestY - (10 * (2/10) + (1/2) * (10 * (4/10))) ∧
      10 * (2/10) ≤ (LevelGenerator.mk 100).highestY -
        ((LevelGenerator.mk 100).generateNext 10 (1/2) 0 0 0).1.y ∧
      (LevelGenerator.mk 100).highestY -
        ((LevelGenerator.mk 100).generateNext 10 (1/2) 0 0 0).1.y ≤ 10 * (6/10) ∧
      ((LevelGenerator.mk 100).generateNext 10 (1/2) 0 0 0).1.y <
        (LevelGenerator.mk 100).highestY ∧
      ((LevelGenerator.mk 100).generateNext 10 (1/2) 0 0 0).2.highestY =
        ((LevelGenerator.mk 100).generateNext 10 (1/2) 0 0 0).1.y) :=
  ⟨by norm_num, by norm_num, by norm_num,
    generateNext_gap_bounds (LevelGenerator.mk 100) 10 (1/2) 0 0 0
      (by norm_num) (by norm_num) (by norm_num)⟩

lemma scoreStep_eq_max (d : ℚ) (s : ℤ) (y : ℚ) :
    scoreStep d s y = max s ⌊-y / d⌋ := by
  simp only [scoreStep]
  split_ifs with h
  · exact (max_eq_right h.le).symm
  · exact (max_eq_left (not_lt.mp h)).symm

lemma runScore_mono (d : ℚ) : ∀ (ys : List ℚ) (s : ℤ), s ≤ runScore d s ys := by
  intro ys
  induction ys with
  | nil => intro s; exact le_refl s
  | cons y t ih =>
      intro s
      have h1 : s ≤ scoreStep d s y := by
        rw [scoreStep_eq_max]; exact le_max_left _ _
      exact le_trans h1 (ih (scoreStep d s y))

lemma floor_max_comm (a b : ℚ) : ⌊max a b⌋ = max ⌊a⌋ ⌊b⌋ := by
  rcases le_total a b with h | h
  · rw [max_eq_right h, max_eq_right (Int.floor_le_floor h)]
  · rw [max_eq_left h, max_eq_left (Int.floor_le_floor h)]

lemma neg_min_div_eq_max (y m d : ℚ) (hd : 0 < d) :
    -(min y m) / d = max (-y / d) (-m / d) := by
  rcases le_total y m with h | h
  · rw [min_eq_left h]
    have hle : -m / d ≤ -y / d :=
      div_le_div_of_nonneg_right (by linarith) hd.le
    rw [max_eq_left hle]
  · rw [min_eq_right h]
    have hle : -y / d ≤ -m / d :=
      div_le_div_of_nonneg_right (by linarith) hd.le
    rw [max_eq_right hle]

lemma foldl_min_pull (y z : ℚ) :
    ∀ t : List ℚ, List.foldl min (min y z) t = min y (List.foldl min z t) := by
  intro t
  induction t generalizing z with
  | nil => rfl
  | cons a t ih =>
      simp only [List.foldl_cons]
      rw [min_assoc]
      exact ih (min z a)

lemma runScore_cons_eq (d : ℚ) (hd : 0 < d) :
    ∀ (t : List ℚ) (y : ℚ) (s : ℤ),
      runScore d s (y :: t) = max s ⌊-(List.foldl min y t) / d⌋ := by
  intro t
  induction t with
  | nil =>
      intro y s
      simp only [List.foldl_cons, List.foldl_nil]
      exact scoreStep_eq_max d s y
  | cons z t ih =>
      intro y s
      have h1 : runScore d s (y :: z :: t) = runScore d (scoreStep d s y) (z :: t) := rfl
      rw [h1, ih z (scoreStep d s y), scoreStep_eq_max]
      have hfold : List.foldl min y (z :: t) = min y (List.foldl min z t) := by
        simp only [List.foldl_cons]
        exact foldl_min_pull y z t
      rw [hfold, neg_min_div_eq_max _ _ _ hd, floor_max_comm, max_assoc]

/-- C1 amended: the score is non-decreasing across frames, and after any
sequence of playing frames it equals the claimed formula
`⌊-(min player.y seen so far) / scoreDivisor⌋` clamped below by the initial
score `0` — the source only raises the score when the new value beats it, so
while the player stays below the starting line (`y > 0`) the score stays at
`0` instead of going negative. -/
theorem score_monotone_and_min_formula (d : ℚ) (hd : 0 < d) :
    (∀ (s : ℤ) (ys : List ℚ), s ≤ runScore d s ys) ∧
    (∀ (y : ℚ) (t : List ℚ),
      runScore d 0 (y :: t) = max 0 ⌊-(List.foldl min y t) / d⌋) := by
  exact ⟨fun s ys => runScore_mono d ys s, fun y t => runScore_cons_eq d hd t y 0⟩

/-- Witness for C1 (amended) with divisor 10 and frame heights 100 then -35:
the final score is `max 0 ⌊35/10⌋ = 3`. -/
theorem score_monotone_and_min_formula_witness :
    (0:ℚ) < 10 ∧
    runScore 10 0 [100, -35] = max 0 ⌊-(List.foldl min (100:ℚ) [-35]) / 10⌋ :=
  ⟨by norm_num, (score_monotone_and_min_formula 10 (by norm_num)).2 100 [-35]⟩

/-- C1 counterexample: with the player still below the start line (one
playing frame at `player.y = 100`, `scoreDivisor = 10` — the reset position
`worldHeight - 150` is such a positive `y`), the score after the frame is
`0`, not `⌊-min(y)/divisor⌋ = -10`: the claimed equality fails although the
score is indeed non-decreasing. -/
theorem score_formula_counterexample :
    runScore 10 0 [100] ≠ ⌊-(List.foldl min (100:ℚ) []) / 10⌋ := by
  norm_num [runScore, scoreStep]

lemma normalOf_unit (c : ColData) (hsq : c.dist ^ 2 = c.dx ^ 2 + c.dy ^ 2) :
    (normalOf c).1 ^ 2 + (normalOf c).2 ^ 2 = 1 := by
  unfold normalOf
  split_ifs with h
  · norm_num
  · have h2 : c.dist ^ 2 ≠ 0 := pow_ne_zero 2 h
    field_simp
    linarith [hsq]

lemma reflect_preserves_sq_norm (vx vy nx ny : ℚ) (hn : nx ^ 2 + ny ^ 2 = 1) :
    (vx - 2 * (vx * nx + vy * ny) * nx) ^ 2 + (vy - 2 * (vx * nx + vy * ny) * ny) ^ 2
      = vx ^ 2 + vy ^ 2 := by
  linear_combination (4 * (vx * nx + vy * ny) ^ 2) * hn

/-- C2: resolving a collision with a `bouncy` wall reflects the velocity
about the contact normal, multiplies both components by 1.1, and returns
`false` (the sub-step loop continues); under the `Math.sqrt` semantics of
the collision record (`dist² = dx² + dy²`) the normal is a unit vector, so
for every non-zero incoming velocity the speed satisfies
`|v'| = 1.1 · |v| > |v|`. -/
theorem bouncy_resolve_speed_gain (w : Wall) (p : Player) (c : ColData)
    (hb : w.type = WType.bouncy)
    (hsq : c.dist ^ 2 = c.dx ^ 2 + c.dy ^ 2)
    (hv : ¬(p.vx = 0 ∧ p.vy = 0)) :
    (w.resolve p c).2 = false ∧
    (w.resolve p c).1.vx =
      (p.vx - 2 * (p.vx * (normalOf c).1 + p.vy * (normalOf c).2) * (normalOf c).1) *
        (11/10) ∧
    (w.resolve p c).1.vy =
      (p.vy - 2 * (p.vx * (normalOf c).1 + p.vy * (normalOf c).2) * (normalOf c).2) *
        (11/10) ∧
    (w.resolve p c).1.vx ^ 2 + (w.resolve p c).1.vy ^ 2
      = (121/100) * (p.vx ^ 2 + p.vy ^ 2) ∧
    p.vx ^ 2 + p.vy ^ 2 < (w.resolve p c).1.vx ^ 2 + (w.resolve p c).1.vy ^ 2 ∧
    Real.sqrt (((w.resolve p c).1.vx ^ 2 + (w.resolve p c).1.vy ^ 2 : ℚ) : ℝ)
      = (11/10) * Real.sqrt ((p.vx ^ 2 + p.vy ^ 2 : ℚ) : ℝ) ∧
    Real.sqrt ((p.vx ^ 2 + p.vy ^ 2 : ℚ) : ℝ)
      < Real.sqrt (((w.resolve p c).1.vx ^ 2 + (w.resolve p c).1.vy ^ 2 : ℚ) : ℝ) := by
  have hn := normalOf_unit c hsq
  have hret : (w.resolve p c).2 = false := by
    simp [Wall.resolve, hb]
  have hvx : (w.resolve p c).1.vx =
      (p.vx - 2 * (p.vx * (normalOf c).1 + p.vy * (normalOf c).2) * (normalOf c).1) *
        (11/10) := by
    simp [Wall.resolve, hb]
  have hvy : (w.resolve p c).1.vy =
      (p.vy - 2 * (p.vx * (normalOf c).1 + p.vy * (normalOf c).2) * (normalOf c).2) *
        (11/10) := by
    simp [Wall.resolve, hb]
  have hs0 : 0 < p.vx ^ 2 + p.vy ^ 2 := by
    rcases not_and_or.mp hv with h | h
    · nlinarith [mul_self_pos.mpr h, sq_nonneg p.vy]
    · nlinarith [mul_self_pos.mpr h, sq_nonneg p.vx]
  have hsqv : (w.resolve p c).1.vx ^ 2 + (w.resolve p c).1.vy ^ 2
      = (121/100) * (p.vx ^ 2 + p.vy ^ 2) := by
    rw [hvx, hvy]
    linear_combination (121/100) *
      reflect_preserves_sq_norm p.vx p.vy (normalOf c).1 (normalOf c).2 hn
  have hlt : p.vx ^ 2 + p.vy ^ 2 < (w.resolve p c).1.vx ^ 2 + (w.resolve p c).1.vy ^ 2 := by
    rw [hsqv]; linarith
  have hcast : (((w.resolve p c).1.vx ^ 2 + (w.resolve p c).1.vy ^ 2 : ℚ) : ℝ)
      = ((11/10 : ℝ)) ^ 2 * ((p.vx ^ 2 + p.vy ^ 2 : ℚ) : ℝ) := by
    rw [hsqv]
    push_cast
    norm_num
  have hsqrt : Real.sqrt (((w.resolve p c).1.vx ^ 2 + (w.resolve p c).1.vy ^ 2 : ℚ) : ℝ)
      = (11/10) * Real.sqrt ((p.vx ^ 2 + p.vy ^ 2 : ℚ) : ℝ) := by
    rw [hcast, Real.sqrt_mul (by positivity) _, Real.sqrt_sq (by norm_num : (0:ℝ) ≤ 11/10)]
  refine ⟨hret, hvx, hvy, hsqv, hlt, hsqrt, ?_⟩
  apply Real.sqrt_lt_sqrt
  · have : (0:ℚ) ≤ p.vx ^ 2 + p.vy ^ 2 := le_of_lt hs0
    exact_mod_cast this
  · exact_mod_cast hlt

/-- Witness for C2: bouncy wall, incoming velocity (1, 0), collision record
(dist, dx, dy) = (5, 3, 4) so the normal is (3/5, 4/5). -/
theorem bouncy_resolve_speed_gain_witness :
    (Wall.mk 0 0 1 1 WType.bouncy).type = WType.bouncy ∧
    (ColData.mk 5 3 4).dist ^ 2 = (ColData.mk 5 3 4).dx ^ 2 + (ColData.mk 5 3 4).dy ^ 2 ∧
    ¬((Player.mk 0 0 1 0 1 PState.air 0 0 0).vx = 0 ∧
      (Player.mk 0 0 1 0 1 PState.air 0 0 0).vy = 0) ∧
    (((Wall.mk 0 0 1 1 WType.bouncy).resolve (Player.mk 0 0 1 0 1 PState.air 0 0 0)
        (ColData.mk 5 3 4)).2 = false ∧
      ((Wall.mk 0 0 1 1 WType.bouncy).resolve (Player.mk 0 0 1 0 1 PState.air 0 0 0)
        (ColData.mk 5 3 4)).1.vx ^ 2 +
      ((Wall.mk 0 0 1 1 WType.bouncy).resolve (Player.mk 0 0 1 0 1 PState.air 0 0 0)
        (ColData.mk 5 3 4)).1.vy ^ 2 =
        (121/100) * ((Player.mk 0 0 1 0 1 PState.air 0 0 0).vx ^ 2 +
          (Player.mk 0 0 1 0 1 PState.air 0 0 0).vy ^ 2)) :=
  ⟨rfl, by norm_num, by norm_num,
    ((bouncy_resolve_speed_gain (Wall.mk 0 0 1 1 WType.bouncy)
        (Player.mk 0 0 1 0 1 PState.air 0 0 0) (ColData.mk 5 3 4)
        rfl (by norm_num) (by norm_num)).1),
    ((bouncy_resolve_speed_gain (Wall.mk 0 0 1 1 WType.bouncy)
        (Player.mk 0 0 1 0 1 PState.air 0 0 0) (ColData.mk 5 3 4)
        rfl (by norm_num) (by norm_num)).2.2.2.1)⟩

/-- C3 amended: resolving a collision with a `normal` or `floor` wall zeroes
the velocity and returns `true` (halting the frame's sub-step loop); the
state becomes `sticky` exactly when the contact normal's y-component exceeds
0.5 *and* the type is `normal` — in that case the anchor `stickPoint` is
placed at the post-depenetration player x and the obstacle's bottom edge
`obstacle.y + obstacle.h`, and `impactSpeed` records the absolute
pre-impact *vertical* velocity `|vy|` (not the full speed); in every other
case, including a `floor`-type underside hit, the state becomes `stuck`. -/
theorem nonbouncy_resolve_sticks (w : Wall) (p : Player) (c : ColData)
    (ht : w.type = WType.normal ∨ w.type = WType.floor) :
    (w.resolve p c).2 = true ∧
    (w.resolve p c).1.vx = 0 ∧
    (w.resolve p c).1.vy = 0 ∧
    ((1/2 < (normalOf c).2 ∧ w.type = WType.normal) →
      (w.resolve p c).1.state = PState.sticky ∧
      (w.resolve p c).1.stickY = w.y + w.h ∧
      (w.resolve p c).1.stickX = (w.resolve p c).1.x ∧
      (w.resolve p c).1.impactSpeed = |p.vy|) ∧
    (¬(1/2 < (normalOf c).2 ∧ w.type = WType.normal) →
      (w.resolve p c).1.state = PState.stuck) := by
  have hb : ¬ w.type = WType.bouncy := by
    rcases ht with h | h <;> simp [h]
  simp only [Wall.resolve]
  rw [if_neg hb]
  split_ifs with hc
  · exact ⟨rfl, rfl, rfl, fun _ => ⟨rfl, rfl, rfl, rfl⟩, fun h => absurd hc h⟩
  · exact ⟨rfl, rfl, rfl, fun h => absurd h hc, fun _ => rfl⟩

/-- Witness for C3 (amended): a `normal` wall hit from below (normal (0,1)),
incoming velocity (3, -4): the player sticks to the underside with
`impactSpeed = 4`. -/
theorem nonbouncy_resolve_sticks_witness :
    ((Wall.mk 0 0 10 4 WType.normal).type = WType.normal ∨
      (Wall.mk 0 0 10 4 WType.normal).type = WType.floor) ∧
    (((Wall.mk 0 0 10 4 WType.normal).resolve
        (Player.mk 5 10 3 (-4) 7 PState.air 0 0 0) (ColData.mk 6 0 6)).2 = true ∧
      ((Wall.mk 0 0 10 4 WType.normal).resolve
        (Player.mk 5 10 3 (-4) 7 PState.air 0 0 0) (ColData.mk 6 0 6)).1.vx = 0 ∧
      ((Wall.mk 0 0 10 4 WType.normal).resolve
        (Player.mk 5 10 3 (-4) 7 PState.air 0 0 0) (ColData.mk 6 0 6)).1.vy = 0 ∧
      ((1/2 < (normalOf (ColData.mk 6 0 6)).2 ∧
          (Wall.mk 0 0 10 4 WType.normal).type = WType.normal) →
        ((Wall.mk 0 0 10 4 WType.normal).resolve
          (Player.mk 5 10 3 (-4) 7 PState.air 0 0 0) (ColData.mk 6 0 6)).1.state =
            PState.sticky ∧
        ((Wall.mk 0 0 10 4 WType.normal).resolve
          (Player.mk 5 10 3 (-4) 7 PState.air 0 0 0) (ColData.mk 6 0 6)).1.stickY =
            (Wall.mk 0 0 10 4 WType.normal).y + (Wall.mk 0 0 10 4 WType.normal).h ∧
        ((Wall.mk 0 0 10 4 WType.normal).resolve
          (Player.mk 5 10 3 (-4) 7 PState.air 0 0 0) (ColData.mk 6 0 6)).1.stickX =
          ((Wall.mk 0 0 10 4 WType.normal).resolve
            (Player.mk 5 10 3 (-4) 7 PState.air 0 0 0) (ColData.mk 6 0 6)).1.x ∧
        ((Wall.mk 0 0 10 4 WType.normal).resolve
          (Player.mk 5 10 3 (-4) 7 PState.air 0 0 0) (ColData.mk 6 0 6)).1.impactSpeed =
            |(Player.mk 5 10 3 (-4) 7 PState.air 0 0 0).vy|) ∧
      (¬(1/2 < (normalOf (ColData.mk 6 0 6)).2 ∧
          (Wall.mk 0 0 10 4 WType.normal).type = WType.normal) →
        ((Wall.mk 0 0 10 4 WType.normal).resolve
          (Player.mk 5 10 3 (-4) 7 PState.air 0 0 0) (ColData.mk 6 0 6)).1.state =
            PState.stuck)) :=
  ⟨Or.inl rfl,
    nonbouncy_resolve_sticks (Wall.mk 0 0 10 4 WType.normal)
      (Player.mk 5 10 3 (-4) 7 PState.air 0 0 0) (ColData.mk 6 0 6) (Or.inl rfl)⟩

/-- C3 counterexample: (a) a `floor`-type wall hit squarely from below — the
collision record (6, 0, 6) gives the normal (0, 1), whose y-component
exceeds 0.5 — leaves the player `stuck`, not `sticky` as the claim states
for "normal or floor"; (b) on a `normal` underside hit with incoming
velocity (3, -4), the recorded `impactSpeed` is `|vy| = 4`, whose square 16
differs from the squared pre-impact speed `3² + 4² = 25`, so `impactSpeed`
is not the pre-impact speed. -/
theorem nonbouncy_resolve_claim_counterexample :
    collides (Wall.mk 0 0 10 4 WType.floor) (Player.mk 5 10 0 (-4) 7 PState.air 0 0 0) ∧
    (1/2 : ℚ) < (normalOf (ColData.mk 6 0 6)).2 ∧
    ((Wall.mk 0 0 10 4 WType.floor).resolve
      (Player.mk 5 10 0 (-4) 7 PState.air 0 0 0) (ColData.mk 6 0 6)).1.state =
        PState.stuck ∧
    ((Wall.mk 0 0 10 4 WType.normal).resolve
      (Player.mk 5 10 3 (-4) 7 PState.air 0 0 0) (ColData.mk 6 0 6)).1.impactSpeed ^ 2 ≠
      (Player.mk 5 10 3 (-4) 7 PState.air 0 0 0).vx ^ 2 +
        (Player.mk 5 10 3 (-4) 7 PState.air 0 0 0).vy ^ 2 := by
  refine ⟨?_, ?_, ?_, ?_⟩
  · norm_num [collides, sqDistToWall, clampQ]
  · norm_num [normalOf]
  · norm_num [Wall.resolve, normalOf, show WType.floor ≠ WType.bouncy by decide,
      show WType.floor ≠ WType.normal by decide]
  · norm_num [Wall.resolve, normalOf, show WType.normal ≠ WType.bouncy by decide]

lemma clampQ_ray (a b p k : ℚ) (hab : a ≤ b) (hk : 0 ≤ k) :
    clampQ (p + (p - clampQ p a b) * k) a b = clampQ p a b := by
  rcases lt_or_le p a with hpa | hpa
  · have hq : clampQ p a b = a := by
      rw [clampQ, min_eq_left (hpa.le.trans hab), max_eq_left hpa.le]
    rw [hq]
    have h1 : p + (p - a) * k ≤ p := by nlinarith
    have h2 : p + (p - a) * k < a := lt_of_le_of_lt h1 hpa
    rw [clampQ, min_eq_left (h2.le.trans hab), max_eq_left h2.le]
  · rcases le_or_lt p b with hpb | hpb
    · have hq : clampQ p a b = p := by
        rw [clampQ, min_eq_left hpb, max_eq_right hpa]
      rw [hq]
      simp only [sub_self, zero_mul, add_zero]
      rw [clampQ, min_eq_left hpb, max_eq_right hpa]
    · have hq : clampQ p a b = b := by
        rw [clampQ, min_eq_right hpb.le, max_eq_right hab]
      rw [hq]
      have h1 : p ≤ p + (p - b) * k := by nlinarith
      have h2 : b < p + (p - b) * k := lt_of_lt_of_le hpb h1
      rw [clampQ, min_eq_right h2.le, max_eq_right hab]

lemma resolve_position_x (w : Wall) (p : Player) (c : ColData) :
    (w.resolve p c).1.x = p.x + (normalOf c).1 * (p.radius - c.dist) := by
  simp only [Wall.resolve]
  split_ifs <;> rfl

lemma resolve_position_y (w : Wall) (p : Player) (c : ColData) :
    (w.resolve p c).1.y = p.y + (normalOf c).2 * (p.radius - c.dist) := by
  simp only [Wall.resolve]
  split_ifs <;> rfl

/-- C4 amended: for every collision resolution whose pre-resolution offset
distance is strictly positive (the clamped-projection offsets and
`dist = √(dx² + dy²) < radius`, with a well-formed rectangle), the player
center after depenetration sits at distance exactly `radius` from the
nearest point of that obstacle's rectangle — never less.  (When `dist` is
exactly zero the source's straight-up default normal can leave the center
inside a tall rectangle; see the counterexample.) -/
theorem depenetration_separates (w : Wall) (p : Player) (c : ColData)
    (hww : 0 ≤ w.w) (hwh : 0 ≤ w.h)
    (hdx : c.dx = p.x - clampQ p.x w.x (w.x + w.w))
    (hdy : c.dy = p.y - clampQ p.y w.y (w.y + w.h))
    (hsq : c.dist ^ 2 = c.dx ^ 2 + c.dy ^ 2)
    (hpos : 0 < c.dist)
    (hcol : c.dist < p.radius) :
    sqDistToWall w (w.resolve p c).1.x (w.resolve p c).1.y = p.radius ^ 2 ∧
    Real.sqrt ((sqDistToWall w (w.resolve p c).1.x (w.resolve p c).1.y : ℚ) : ℝ)
      = (p.radius : ℝ) ∧
    (p.radius : ℝ) ≤
      Real.sqrt ((sqDistToWall w (w.resolve p c).1.x (w.resolve p c).1.y : ℚ) : ℝ) := by
  have hd0 : c.dist ≠ 0 := ne_of_gt hpos
  have hk : 0 ≤ (p.radius - c.dist) / c.dist :=
    div_nonneg (by linarith) hpos.le
  have hnx : (normalOf c).1 = c.dx / c.dist := by
    unfold normalOf; rw [if_neg hd0]
  have hny : (normalOf c).2 = c.dy / c.dist := by
    unfold normalOf; rw [if_neg hd0]
  have hx' : (w.resolve p c).1.x =
      p.x + (p.x - clampQ p.x w.x (w.x + w.w)) * ((p.radius - c.dist) / c.dist) := by
    rw [resolve_position_x, hnx, hdx]; ring
  have hy' : (w.resolve p c).1.y =
      p.y + (p.y - clampQ p.y w.y (w.y + w.h)) * ((p.radius - c.dist) / c.dist) := by
    rw [resolve_position_y, hny, hdy]; ring
  have hqx : clampQ (w.resolve p c).1.x w.x (w.x + w.w) = clampQ p.x w.x (w.x + w.w) := by
    rw [hx']
    exact clampQ_ray w.x (w.x + w.w) p.x _ (by linarith) hk
  have hqy : clampQ (w.resolve p c).1.y w.y (w.y + w.h) = clampQ p.y w.y (w.y + w.h) := by
    rw [hy']
    exact clampQ_ray w.y (w.y + w.h) p.y _ (by linarith) hk
  have hck : c.dist * (1 + (p.radius - c.dist) / c.dist) = p.radius := by
    field_simp
  have hmain : sqDistToWall w (w.resolve p c).1.x (w.resolve p c).1.y = p.radius ^ 2 := by
    unfold sqDistToWall
    rw [hqx, hqy, hx', hy']
    have hexp :
        (p.x + (p.x - clampQ p.x w.x (w.x + w.w)) * ((p.radius - c.dist) / c.dist) -
            clampQ p.x w.x (w.x + w.w)) ^ 2 +
          (p.y + (p.y - clampQ p.y w.y (w.y + w.h)) * ((p.radius - c.dist) / c.dist) -
            clampQ p.y w.y (w.y + w.h)) ^ 2 =
          (c.dx ^ 2 + c.dy ^ 2) * (1 + (p.radius - c.dist) / c.dist) ^ 2 := by
      rw [hdx, hdy]; ring
    rw [hexp, ← hsq]
    calc c.dist ^ 2 * (1 + (p.radius - c.dist) / c.dist) ^ 2
        = (c.dist * (1 + (p.radius - c.dist) / c.dist)) ^ 2 := by ring
      _ = p.radius ^ 2 := by rw [hck]
  have hr0 : (0:ℚ) ≤ p.radius := by linarith
  have hsqrt : Real.sqrt ((sqDistToWall w (w.resolve p c).1.x (w.resolve p c).1.y : ℚ) : ℝ)
      = (p.radius : ℝ) := by
    rw [hmain]
    push_cast
    exact Real.sqrt_sq (by exact_mod_cast hr0)
  exact ⟨hmain, hsqrt, le_of_eq hsqrt.symm⟩

/-- Witness for C4 (amended): wall rectangle [0,10]×[0,10], player center at
(13, 14) with radius 6; the offsets are (3, 4), the distance 5, and after
depenetration the center is at (13.6, 14.8), exactly 6 from the corner. -/
theorem depenetration_separates_witness :
    (0:ℚ) ≤ (Wall.mk 0 0 10 10 WType.normal).w ∧
    (0:ℚ) ≤ (Wall.mk 0 0 10 10 WType.normal).h ∧
    (ColData.mk 5 3 4).dx =
      (Player.mk 13 14 0 0 6 PState.air 0 0 0).x -
        clampQ (Player.mk 13 14 0 0 6 PState.air 0 0 0).x
          (Wall.mk 0 0 10 10 WType.normal).x
          ((Wall.mk 0 0 10 10 WType.normal).x + (Wall.mk 0 0 10 10 WType.normal).w) ∧
    (ColData.mk 5 3 4).dy =
      (Player.mk 13 14 0 0 6 PState.air 0 0 0).y -
        clampQ (Player.mk 13 14 0 0 6 PState.air 0 0 0).y
          (Wall.mk 0 0 10 10 WType.normal).y
          ((Wall.mk 0 0 10 10 WType.normal).y + (Wall.mk 0 0 10 10 WType.normal).h) ∧
    (ColData.mk 5 3 4).dist ^ 2 = (ColData.mk 5 3 4).dx ^ 2 + (ColData.mk 5 3 4).dy ^ 2 ∧
    (0:ℚ) < (ColData.mk 5 3 4).dist ∧
    (ColData.mk 5 3 4).dist < (Player.mk 13 14 0 0 6 PState.air 0 0 0).radius ∧
    sqDistToWall (Wall.mk 0 0 10 10 WType.normal)
        ((Wall.mk 0 0 10 10 WType.normal).resolve
          (Player.mk 13 14 0 0 6 PState.air 0 0 0) (ColData.mk 5 3 4)).1.x
        ((Wall.mk 0 0 10 10 WType.normal).resolve
          (Player.mk 13 14 0 0 6 PState.air 0 0 0) (ColData.mk 5 3 4)).1.y =
      (Player.mk 13 14 0 0 6 PState.air 0 0 0).radius ^ 2 :=
  ⟨by norm_num, by norm_num, by norm_num [clampQ], by norm_num [clampQ],
    by norm_num, by norm_num, by norm_num,
    (depenetration_separates (Wall.mk 0 0 10 10 WType.normal)
      (Player.mk 13 14 0 0 6 PState.air 0 0 0) (ColData.mk 5 3 4)
      (by norm_num) (by norm_num) (by norm_num [clampQ]) (by norm_num [clampQ])
      (by norm_num) (by norm_num) (by norm_num)).1⟩

/-- C4 counterexample: a tall wall [0,10]×[0,100] and a player of radius 12
whose center (5, 50) lies deep inside it.  `checkCollision` reports the
record (0, 0, 0) (`dist = √0 = 0` — computed here with the identity as the
square-root oracle, which is exact at 0), the default normal (0, -1) moves
the center up by the full radius to (5, 38), which is still inside the
rectangle: the post-resolution distance is 0, strictly less than the
radius. -/
theorem depenetration_claim_counterexample :
    collides (Wall.mk 0 0 10 100 WType.normal)
      (Player.mk 5 50 0 0 12 PState.air 0 0 0) ∧
    Wall.checkCollision (fun q => q) (Wall.mk 0 0 10 100 WType.normal)
      (Player.mk 5 50 0 0 12 PState.air 0 0 0) = some (ColData.mk 0 0 0) ∧
    sqDistToWall (Wall.mk 0 0 10 100 WType.normal)
        ((Wall.mk 0 0 10 100 WType.normal).resolve
          (Player.mk 5 50 0 0 12 PState.air 0 0 0) (ColData.mk 0 0 0)).1.x
        ((Wall.mk 0 0 10 100 WType.normal).resolve
          (Player.mk 5 50 0 0 12 PState.air 0 0 0) (ColData.mk 0 0 0)).1.y <
      ((Wall.mk 0 0 10 100 WType.normal).resolve
        (Player.mk 5 50 0 0 12 PState.air 0 0 0) (ColData.mk 0 0 0)).1.radius ^ 2 := by
  refine ⟨?_, ?_, ?_⟩
  · norm_num [collides, sqDistToWall, clampQ]
  · norm_num [Wall.checkCollision, clampQ]
  · norm_num [Wall.resolve, normalOf, sqDistToWall, clampQ,
      show WType.normal ≠ WType.bouncy by decide]

end SlimeGame
